import Mathlib

/-!
# Verification of the Trivia CLI game (`src/trivia.js`)

This file shallowly embeds the question-flow core of the trivia game:
the answer evaluator (`processAnswer`), the per-question resolution step of
`nextQuestion`, session start/reset (`startGame`), the timer-vs-input race
inside `nextQuestion`, and the report computations of `endGame` /
`calculateGrade`.  Machine integers of the source are modelled as `Nat`/`Int`
(none of the quantities can overflow in the scenarios of interest), the
floating-point divisions of `endGame`/`calculateGrade` are modelled by an
explicit JavaScript-number type with `NaN` and `+Infinity`, and the
`ReferenceError` thrown on line 171 of the source (`pointsObj` is not
defined) is modelled as an explicit outcome.
-/

namespace Trivia

/-- A question record as stored in `gameState.questions`
(fields `question`, `options`, `answer`, `category`, `points`). -/
structure Question where
  question : String
  options : List String
  answer : Nat
  category : String
  points : Nat
  deriving Repr, DecidableEq

/-- The mutable `gameState` object (lines 18-26), minus the
presentation-only `timerId` handle. -/
structure GameState where
  currentQuestionIndex : Nat
  score : Nat
  totalTime : Nat
  gameActive : Bool
  questions : List Question
  timePerQuestion : Nat
  deriving Repr, DecidableEq

/-- The initial `gameState` literal: index 0, score 0, no time, inactive,
no questions, 30 seconds per question. -/
def initialGameState : GameState :=
  { currentQuestionIndex := 0
    score := 0
    totalTime := 0
    gameActive := false
    questions := []
    timePerQuestion := 30 }

/-- First fallback question of `loadQuestions` (lines 42-48). -/
def fallbackQ1 : Question :=
  { question := "What is 2 + 2?"
    options := ["3", "4", "5", "6"]
    answer := 1
    category := "Math"
    points := 5 }

/-- Second fallback question of `loadQuestions` (lines 49-55). -/
def fallbackQ2 : Question :=
  { question := "What color is the sky?"
    options := ["Red", "Green", "Blue", "Yellow"]
    answer := 2
    category := "Science"
    points := 5 }

/-! ## JavaScript `parseInt`

`processAnswer` parses the raw input with `parseInt(userAnswer)` (line 157).
`parseInt` skips leading whitespace, accepts an optional sign, a `0x`/`0X`
hexadecimal prefix, and then reads the longest prefix of digits of the
radix, returning `NaN` (here: `none`) when no digit is found. -/

/-- Decimal digit test on a character (code points 48-57). -/
def isDigitC (c : Char) : Bool := decide (48 ≤ c.toNat ∧ c.toNat ≤ 57)

/-- ASCII lower-casing of one character, as `toLowerCase()` acts on the
command inputs compared against `"quit"`, `"skip"`, `"no"`, `"yes"`. -/
def charToLower (c : Char) : Char :=
  if 65 ≤ c.toNat ∧ c.toNat ≤ 90 then Char.ofNat (c.toNat + 32) else c

/-- `s.toLowerCase()` on a string (character-wise ASCII lower-casing). -/
def toLowerJS (s : String) : String := String.mk (s.data.map charToLower)

/-- Whitespace skipped by `parseInt` (space, tab, LF, CR; the input has
already been `trim()`ed by `askQuestion`, line 147). -/
def isWsC (c : Char) : Bool :=
  c.toNat = 32 ∨ c.toNat = 9 ∨ c.toNat = 10 ∨ c.toNat = 13

/-- Hexadecimal digit test. -/
def isHexC (c : Char) : Bool :=
  isDigitC c ∨ (97 ≤ c.toNat ∧ c.toNat ≤ 102) ∨ (65 ≤ c.toNat ∧ c.toNat ≤ 70)

/-- Value of one hexadecimal digit. -/
def hexVal (c : Char) : Nat :=
  if isDigitC c then c.toNat - 48
  else if 97 ≤ c.toNat then c.toNat - 87
  else c.toNat - 55

/-- Value of a decimal digit string (most significant first). -/
def decValue (ds : List Char) : Nat :=
  ds.foldl (fun a c => 10 * a + (c.toNat - 48)) 0

/-- Value of a hexadecimal digit string (most significant first). -/
def hexValue (ds : List Char) : Nat :=
  ds.foldl (fun a c => 16 * a + hexVal c) 0

/-- Whether the digit text starts with a `0x`/`0X` hexadecimal prefix. -/
def startsHex (cs : List Char) : Bool :=
  match cs with
  | c0 :: c1 :: _ => c0 = '0' ∧ (c1 = 'x' ∨ c1 = 'X')
  | _ => false

/-- `parseInt` after sign handling: hexadecimal when the text starts with
`0x`/`0X`, otherwise the longest decimal-digit prefix; `none` is `NaN`. -/
def parseUnsigned (cs : List Char) : Option Nat :=
  if startsHex cs then
    let hs := (cs.drop 2).takeWhile isHexC
    if hs.isEmpty then none else some (hexValue hs)
  else
    let ds := cs.takeWhile isDigitC
    if ds.isEmpty then none else some (decValue ds)

/-- JavaScript `parseInt(s)` with the default radix, as used on line 157;
`none` stands for `NaN`. -/
def parseIntJS (s : String) : Option Int :=
  match s.data.dropWhile isWsC with
  | [] => none
  | c :: rest =>
    if c = '-' then (parseUnsigned rest).map (fun n => -(n : Int))
    else if c = '+' then (parseUnsigned rest).map (fun n => (n : Int))
    else (parseUnsigned (c :: rest)).map (fun n => (n : Int))

/-! ## The answer evaluator `processAnswer` (lines 155-180)

The function prints a message and returns a boolean, updating
`gameState.score` on the bonus path.  One source subtlety is embedded
faithfully: on the correct-answer path *without* time bonus the source
executes ``console.log(`... +${pointsObj.points} points`)`` (line 171), and
`pointsObj` is not defined anywhere, so this path throws a
`ReferenceError` before `gameState.score += pointsEarned` (line 174) can
run.  Each constructor below is one source path. -/

/-- Outcome of one call to `processAnswer`:
* `invalid` — `isNaN(userIndex) || userIndex < 0 || userIndex >= options.length`
  (lines 159-162): prints the inline "Invalid answer!" message and returns
  `false`, state unchanged;
* `correctBonus s` — correct answer with time bonus (lines 167-169, 174-175):
  returns `true` with new score `s`;
* `refError` — correct answer without bonus (line 171): throws
  `ReferenceError: pointsObj is not defined`, score not updated;
* `incorrect` — wrong option (lines 176-179): prints the correction and
  returns `false`, state unchanged. -/
inductive PAResult where
  | invalid
  | correctBonus (newScore : Nat)
  | refError
  | incorrect
  deriving Repr, DecidableEq

/-- `processAnswer(questionObj, userAnswer, answerTime)` (lines 155-180),
reading `gameState.timePerQuestion` and `gameState.score` as explicit
arguments.  The real-valued test `answerTime < timePerQuestion / 2`
(line 167) is the integer test `2 * answerTime < timePerQuestion`, and
`Math.floor(points * 0.5)` (line 168) is `points / 2`. -/
def processAnswer (q : Question) (userAnswer : String) (answerTime : Nat)
    (timePerQuestion : Nat) (score : Nat) : PAResult :=
  match parseIntJS userAnswer with
  | none => .invalid
  | some n =>
    let userIndex : Int := n - 1
    if userIndex < 0 ∨ (q.options.length : Int) ≤ userIndex then .invalid
    else if userIndex = (q.answer : Int) then
      if 0 < timePerQuestion ∧ 2 * answerTime < timePerQuestion then
        .correctBonus (score + (q.points + q.points / 2))
      else .refError
    else .incorrect

/-! ## Session start (`startGame`, lines 80-95)

`startGame` sets `gameActive = true` and resets `currentQuestionIndex`,
`score` and `totalTime` to 0, then asks "Do you want to play with timer?"
and sets `timePerQuestion = 0` exactly when the (trimmed) reply lowercases
to `"no"`.  No other field is written: in particular `timePerQuestion` is
*not* reset to its initial value 30. -/

/-- `startGame()` up to the first `nextQuestion()` call, with the player's
reply to the timer prompt as an argument. -/
def startGame (st : GameState) (useTimer : String) : GameState :=
  let st' := { st with gameActive := true, currentQuestionIndex := 0,
                       score := 0, totalTime := 0 }
  if toLowerJS useTimer = "no" then { st' with timePerQuestion := 0 } else st'

/-! ## One resolution step of `nextQuestion` (lines 185-245)

`nextQuestion` first checks `!gameState.gameActive ||
currentQuestionIndex >= questions.length` and calls `endGame()` (which sets
`gameActive = false`) in that case.  Otherwise the current question is
resolved by exactly one event: the timer reaching zero, or one line of user
input.  The step below is the *atomic* resolution (the interleaving of a
late input after a timeout is modelled separately by `raceStep`).

Source mapping for the input branch (lines 212-244): `"quit"` calls
`endGame()` without touching the index; `"skip"` increments the index and
returns *before* the `totalTime += answerTime` line; any other input goes
through `processAnswer` and then runs `currentQuestionIndex++` and
`totalTime += answerTime` — unless `processAnswer` threw the line-171
`ReferenceError`, in which case neither line runs (`Except.error ()`).
The timeout handler (lines 200-208) only increments the index. -/

/-- The event resolving the current question. -/
inductive QEvent where
  | timeout
  | input (s : String) (answerTime : Nat)
  deriving Repr, DecidableEq

/-- One atomic resolution step of `nextQuestion`; `Except.error ()` is the
uncaught `ReferenceError` of line 171 escaping `nextQuestion`. -/
def nextQuestionStep (st : GameState) (ev : QEvent) : Except Unit GameState :=
  if st.gameActive = false ∨ st.questions.length ≤ st.currentQuestionIndex then
    .ok { st with gameActive := false }
  else
    match ev with
    | .timeout =>
      .ok { st with currentQuestionIndex := st.currentQuestionIndex + 1 }
    | .input s answerTime =>
      if toLowerJS s = "quit" then .ok { st with gameActive := false }
      else if toLowerJS s = "skip" then
        .ok { st with currentQuestionIndex := st.currentQuestionIndex + 1 }
      else
        match st.questions[st.currentQuestionIndex]? with
        | none => .ok st
        | some q =>
          match processAnswer q s answerTime st.timePerQuestion st.score with
          | .refError => .error ()
          | .correctBonus newScore =>
            .ok { st with score := newScore,
                          currentQuestionIndex := st.currentQuestionIndex + 1,
                          totalTime := st.totalTime + answerTime }
          | _ =>
            .ok { st with currentQuestionIndex := st.currentQuestionIndex + 1,
                          totalTime := st.totalTime + answerTime }

/-! ## The timer-vs-input race inside `nextQuestion` (lines 195-244)

With the timer enabled, `nextQuestion` starts a `setInterval` whose
callback fires `'timeout'` once per second after the budget is exhausted
(lines 122-139) and concurrently awaits one line of input.  The callback is
guarded by the closure flag `answered` (lines 197, 200-201), so repeated
interval fires after the first timeout are no-ops; the input continuation
calls `clearInterval` (line 219), so the interval cannot fire after input
was processed.  The input continuation, however, never consults `answered`:
input typed after a timeout has fired is processed in full.  Both the
timeout handler and the input continuation increment
`currentQuestionIndex` (lines 205, 231, 240); the model counts each
increment when its handler runs. -/

/-- Event-loop state of one timer-enabled question: the game fields, the
one-shot `answered` flag of the timeout closure, whether `clearInterval`
ran, whether the single readline answer was already delivered, and whether
the line-171 `ReferenceError` crashed the loop. -/
structure RaceState where
  gs : GameState
  answered : Bool
  timerCleared : Bool
  inputDone : Bool
  crashed : Bool
  deriving Repr, DecidableEq

/-- An event-loop event while one question is open: the interval callback
firing `'timeout'`, or the readline answer arriving. -/
inductive REvent where
  | timeoutFire
  | inputArrive (s : String) (answerTime : Nat)
  deriving Repr, DecidableEq

/-- Effect of one event-loop event on the open question `q`
(mirrors lines 195-244, see the section comment). -/
def raceStep (q : Question) (st : RaceState) (ev : REvent) : RaceState :=
  if st.crashed then st else
  match ev with
  | .timeoutFire =>
    if st.timerCleared then st
    else if st.answered then st
    else
      { st with answered := true,
                gs := { st.gs with
                        currentQuestionIndex := st.gs.currentQuestionIndex + 1 } }
  | .inputArrive s answerTime =>
    if st.inputDone then st
    else
      let st' := { st with inputDone := true, timerCleared := true }
      if toLowerJS s = "quit" then
        { st' with gs := { st'.gs with gameActive := false } }
      else if toLowerJS s = "skip" then
        { st' with gs := { st'.gs with
                           currentQuestionIndex := st'.gs.currentQuestionIndex + 1 } }
      else
        match processAnswer q s answerTime st'.gs.timePerQuestion st'.gs.score with
        | .refError => { st' with crashed := true }
        | .correctBonus newScore =>
          { st' with gs := { st'.gs with
                             score := newScore,
                             currentQuestionIndex := st'.gs.currentQuestionIndex + 1,
                             totalTime := st'.gs.totalTime + answerTime } }
        | _ =>
          { st' with gs := { st'.gs with
                             currentQuestionIndex := st'.gs.currentQuestionIndex + 1,
                             totalTime := st'.gs.totalTime + answerTime } }

/-- Run a sequence of event-loop events on one open question. -/
def runRace (q : Question) (st : RaceState) (evs : List REvent) : RaceState :=
  evs.foldl (raceStep q) st

/-! ## The final report (`endGame`, lines 264-318, and `calculateGrade`,
lines 250-259)

The divisions are JavaScript floating-point divisions: dividing by zero
never throws but yields `+Infinity` (positive numerator) or `NaN` (zero
numerator), and every `>=` comparison against `NaN` is false.  `JsNum`
models exactly the values these expressions can take here. -/

/-- A JavaScript number as produced by the report's divisions: an exact
rational, `+Infinity`, or `NaN`. -/
inductive JsNum where
  | num (x : ℚ)
  | posInf
  | nan
  deriving Repr, DecidableEq

/-- JavaScript division `a / b` of two nonnegative integers. -/
def jsDivNat (a b : Nat) : JsNum :=
  if b = 0 then (if a = 0 then .nan else .posInf) else .num ((a : ℚ) / (b : ℚ))

/-- Multiplication by the literal `100`. -/
def jsTimes100 : JsNum → JsNum
  | .num x => .num (x * 100)
  | .posInf => .posInf
  | .nan => .nan

/-- JavaScript `x >= c` for a model number and an integer literal:
false for `NaN`, true for `+Infinity`. -/
def jsGe (x : JsNum) (c : ℚ) : Bool :=
  match x with
  | .num q => decide (c ≤ q)
  | .posInf => true
  | .nan => false

/-- `calculateGrade(score, totalPossible)` (lines 250-259):
`percentage = (score / totalPossible) * 100` with no zero guard, then a
`>=` ladder. -/
def calculateGrade (score totalPossible : Nat) : String :=
  let percentage := jsTimes100 (jsDivNat score totalPossible)
  if jsGe percentage 90 then "A+ 🏆"
  else if jsGe percentage 80 then "A 🎯"
  else if jsGe percentage 70 then "B 👍"
  else if jsGe percentage 60 then "C 📊"
  else if jsGe percentage 50 then "D 😅"
  else "F 😢"

/-- The average-time value printed by `endGame` (line 295):
`questionsAnswered > 0 ? totalTime / questionsAnswered : 0` — this ternary
is the explicit zero guard. -/
def averageTimeDisplay (totalTime questionsAnswered : Nat) : JsNum :=
  if 0 < questionsAnswered then jsDivNat totalTime questionsAnswered else .num 0

/-- `questionsAnswered` in the report (line 276) is the final
`currentQuestionIndex`. -/
def questionsAnswered (st : GameState) : Nat := st.currentQuestionIndex

/-- `totalPossiblePoints` (line 278): `reduce` summing `points`. -/
def totalPossiblePoints (qs : List Question) : Nat :=
  qs.foldl (fun total q => total + q.points) 0

/-- The per-category accumulator entry `{ questions, points }`. -/
structure CatStat where
  questions : Nat
  points : Nat
  deriving Repr, DecidableEq

/-- One `reduce` step of the category statistics (lines 283-288): bump the
entry for `cat`, inserting it at the end on first sight (JavaScript object
keys keep insertion order). -/
def bumpCat (stats : List (String × CatStat)) (cat : String) (pts : Nat) :
    List (String × CatStat) :=
  match stats with
  | [] => [(cat, ⟨1, pts⟩)]
  | (c, s) :: rest =>
    if c = cat then (c, ⟨s.questions + 1, s.points + pts⟩) :: rest
    else (c, s) :: bumpCat rest cat pts

/-- Category statistics of a question list (the `reduce` of lines 283-288). -/
def categoryStatsOf (qs : List Question) : List (String × CatStat) :=
  qs.foldl (fun stats q => bumpCat stats q.category q.points) []

/-- `questions.filter((q, i) => i < k)` (lines 281-282): filter by the
position index, starting the count at `i`. -/
def filterIdxLt (k : Nat) : Nat → List Question → List Question
  | _, [] => []
  | i, q :: rest =>
    if i < k then q :: filterIdxLt k (i + 1) rest else filterIdxLt k (i + 1) rest

/-- The `categoryStats` object computed by `endGame` (lines 281-288). -/
def categoryStats (st : GameState) : List (String × CatStat) :=
  categoryStatsOf (filterIdxLt (questionsAnswered st) 0 st.questions)

/-! ## Characterization lemmas for `processAnswer` -/

/-- `processAnswer` on input whose `parseInt` is `NaN`. -/
theorem processAnswer_parse_none (q : Question) (s : String) (t tpq sc : Nat)
    (hp : parseIntJS s = none) :
    processAnswer q s t tpq sc = .invalid := by
  unfold processAnswer
  rw [hp]

/-- `processAnswer` on input whose `parseInt` is the integer `n`. -/
theorem processAnswer_parse_some (q : Question) (s : String) (t tpq sc : Nat)
    (n : Int) (hp : parseIntJS s = some n) :
    processAnswer q s t tpq sc =
      (if n - 1 < 0 ∨ (q.options.length : Int) ≤ n - 1 then .invalid
       else if n - 1 = (q.answer : Int) then
         (if 0 < tpq ∧ 2 * t < tpq then
            .correctBonus (sc + (q.points + q.points / 2))
          else .refError)
       else .incorrect) := by
  unfold processAnswer
  rw [hp]

/-- With the timer disabled (`timePerQuestion = 0`) no call to
`processAnswer` ever reaches the score update: every path is `invalid`,
`incorrect`, or the line-171 `ReferenceError`. -/
theorem processAnswer_no_timer_no_score (q : Question) (s : String)
    (t sc : Nat) :
    processAnswer q s t 0 sc = .invalid ∨ processAnswer q s t 0 sc = .refError ∨
      processAnswer q s t 0 sc = .incorrect := by
  cases hp : parseIntJS s with
  | none => exact Or.inl (processAnswer_parse_none q s t 0 sc hp)
  | some n =>
    rw [processAnswer_parse_some q s t 0 sc n hp]
    split
    · exact Or.inl rfl
    · split
      · rw [if_neg (by omega)]
        exact Or.inr (Or.inl rfl)
      · exact Or.inr (Or.inr rfl)

/-- An in-progress session on the two fallback questions with a 30-second
timer, used to instantiate the general theorems. -/
def demoState : GameState :=
  { currentQuestionIndex := 0
    score := 0
    totalTime := 0
    gameActive := true
    questions := [fallbackQ1, fallbackQ2]
    timePerQuestion := 30 }

/-- The same in-progress session with the timer disabled. -/
def demoStateNoTimer : GameState :=
  { demoState with timePerQuestion := 0 }

/-- **C1.** Claimed: a correct answer with the timer disabled, or with the
timer enabled and `elapsedSeconds >= timeBudgetSeconds / 2`, earns exactly
`question.points` and adds it to the score.  The code instead throws
`ReferenceError: pointsObj is not defined` on line 171 before the score
update (line 174) can run: on the fallback question "What is 2 + 2?"
(`points = 5`, correct option `2`), answering `"2"` with the timer disabled
(or with a 30-second timer after 20 elapsed seconds) yields the error
outcome, and inside `nextQuestion` the exception escapes before
`currentQuestionIndex++`. -/
theorem correct_answer_without_bonus_throws :
    processAnswer fallbackQ1 "2" 3 0 0 = .refError ∧
    processAnswer fallbackQ1 "2" 20 30 0 = .refError ∧
    nextQuestionStep demoStateNoTimer (.input "2" 3) = .error () := by
  refine ⟨by decide, by decide, rfl⟩

/-- **C2.** A correct answer given with the timer enabled
(`timePerQuestion > 0`) and `answerTime < timePerQuestion / 2` earns
`question.points + floor(question.points * 0.5)` points, added to the
score; and with the timer disabled no call to `processAnswer` ever scores
a bonus (indeed none updates the score at all). -/
theorem processAnswer_time_bonus (q : Question) (s : String) (i : Int)
    (t tpq sc : Nat) (hp : parseIntJS s = some i)
    (hi : i = (q.answer : Int) + 1) (hlen : q.answer < q.options.length)
    (htimer : 0 < tpq) (hfast : 2 * t < tpq) :
    processAnswer q s t tpq sc = .correctBonus (sc + (q.points + q.points / 2)) ∧
    ∀ (s2 : String) (t2 sc2 r : Nat),
      processAnswer q s2 t2 0 sc2 ≠ .correctBonus r := by
  constructor
  · rw [processAnswer_parse_some q s t tpq sc i hp]
    rw [if_neg (by omega), if_pos (by omega), if_pos ⟨htimer, hfast⟩]
  · intro s2 t2 sc2 r
    rcases processAnswer_no_timer_no_score q s2 t2 sc2 with h | h | h <;>
      simp [h]

/-- Witness for C2: on the fallback question (`points = 5`), answering
`"2"` after 3 of 30 seconds earns `5 + floor(5 * 0.5) = 7` points. -/
theorem processAnswer_time_bonus_witness :
    processAnswer fallbackQ1 "2" 3 30 0 = .correctBonus 7 ∧
    ∀ (s2 : String) (t2 sc2 r : Nat),
      processAnswer fallbackQ1 s2 t2 0 sc2 ≠ .correctBonus r :=
  processAnswer_time_bonus fallbackQ1 "2" 2 3 30 0 rfl (by decide)
    (by decide) (by decide) (by decide)

/-! ## Prefix parsing (C10) -/

/-- Numeric bounds of a decimal digit character. -/
theorem isDigitC_bounds {c : Char} (h : isDigitC c = true) :
    48 ≤ c.toNat ∧ c.toNat ≤ 57 := by
  simpa [isDigitC] using h

/-- `takeWhile isDigitC` on digits followed by a non-digit keeps exactly
the digits. -/
theorem takeWhile_digits_append (ds rest : List Char)
    (hdig : ∀ c ∈ ds, isDigitC c = true)
    (hrest : ∀ c, rest.head? = some c → isDigitC c = false) :
    (ds ++ rest).takeWhile isDigitC = ds := by
  induction ds with
  | nil =>
    cases rest with
    | nil => rfl
    | cons c tl => simp [List.takeWhile_cons, hrest c rfl]
  | cons d tl ih =>
    have hd := hdig d (List.mem_cons_self d tl)
    simp [List.takeWhile_cons, hd,
          ih (fun c hc => hdig c (List.mem_cons_of_mem d hc))]

/-- A nonempty all-digit prefix of value at least 1 never forms a `0x`
hexadecimal prefix. -/
theorem startsHex_digits_false (ds rest : List Char) (hne : ds ≠ [])
    (hdig : ∀ c ∈ ds, isDigitC c = true) (h1 : 1 ≤ decValue ds) :
    startsHex (ds ++ rest) = false := by
  match ds, hne with
  | [d], _ =>
    have hd0 : d ≠ '0' := by
      intro h
      subst h
      exact absurd h1 (by decide)
    cases rest with
    | nil => rfl
    | cons c tl =>
      show startsHex (d :: c :: tl) = false
      simp [startsHex, hd0]
  | d :: e :: tl, _ =>
    have he := isDigitC_bounds (hdig e (by simp))
    have hx : e ≠ 'x' := by
      intro h
      subst h
      exact absurd he (by decide)
    have hX : e ≠ 'X' := by
      intro h
      subst h
      exact absurd he (by decide)
    show startsHex (d :: e :: (tl ++ rest)) = false
    simp [startsHex, hx, hX]

/-- `parseUnsigned` on digits followed by a non-digit reads the digits. -/
theorem parseUnsigned_digits (ds rest : List Char) (hne : ds ≠ [])
    (hdig : ∀ c ∈ ds, isDigitC c = true)
    (hrest : ∀ c, rest.head? = some c → isDigitC c = false)
    (h1 : 1 ≤ decValue ds) :
    parseUnsigned (ds ++ rest) = some (decValue ds) := by
  unfold parseUnsigned
  rw [startsHex_digits_false ds rest hne hdig h1]
  simp [takeWhile_digits_append ds rest hdig hrest, hne]

/-- `parseIntJS` on a string made of decimal digits (of value at least 1)
followed by non-numeric text returns the value of the digit prefix. -/
theorem parseIntJS_digit_prefix (ds rest : List Char) (hne : ds ≠ [])
    (hdig : ∀ c ∈ ds, isDigitC c = true)
    (hrest : ∀ c, rest.head? = some c → isDigitC c = false)
    (h1 : 1 ≤ decValue ds) :
    parseIntJS (String.mk (ds ++ rest)) = some ((decValue ds : Int)) := by
  match ds, hne with
  | d :: tl, _ =>
    have hd := isDigitC_bounds (hdig d (List.mem_cons_self d tl))
    have hws : isWsC d = false := by
      simp only [isWsC, decide_eq_false_iff_not]
      omega
    have hm : ¬(d = '-') := by
      intro h
      subst h
      exact absurd hd (by decide)
    have hp : ¬(d = '+') := by
      intro h
      subst h
      exact absurd hd (by decide)
    have hdata : (String.mk ((d :: tl) ++ rest)).data = d :: (tl ++ rest) := rfl
    unfold parseIntJS
    rw [hdata, List.dropWhile_cons, hws]
    simp only [Bool.false_eq_true, if_false, hm, hp, if_neg]
    rw [show d :: (tl ++ rest) = (d :: tl) ++ rest from rfl,
        parseUnsigned_digits (d :: tl) rest (by simp) hdig hrest h1]
    rfl

/-- **C10.** An in-question input whose leading characters form a decimal
numeral of value `i` with `1 ≤ i ≤ len(options)` is accepted as option `i`
even when followed by non-numeric text: `parseInt` reads the digit prefix,
the answer is not rejected as invalid, and `processAnswer` returns exactly
what it returns on the clean numeral (e.g. `"3abc"` behaves like `"3"`). -/
theorem processAnswer_accepts_digit_prefix (q : Question) (ds rest : List Char)
    (t tpq sc : Nat) (hne : ds ≠ []) (hdig : ∀ c ∈ ds, isDigitC c = true)
    (hrest : ∀ c, rest.head? = some c → isDigitC c = false)
    (h1 : 1 ≤ decValue ds) (h2 : decValue ds ≤ q.options.length) :
    parseIntJS (String.mk (ds ++ rest)) = some ((decValue ds : Int)) ∧
    processAnswer q (String.mk (ds ++ rest)) t tpq sc ≠ .invalid ∧
    processAnswer q (String.mk (ds ++ rest)) t tpq sc =
      processAnswer q (String.mk ds) t tpq sc := by
  have hparse := parseIntJS_digit_prefix ds rest hne hdig hrest h1
  have hparse0 : parseIntJS (String.mk ds) = some ((decValue ds : Int)) := by
    have h := parseIntJS_digit_prefix ds [] hne hdig
      (fun c hc => absurd hc (by simp)) h1
    simpa using h
  refine ⟨hparse, ?_, ?_⟩
  · rw [processAnswer_parse_some q _ t tpq sc _ hparse]
    rw [if_neg (by omega)]
    split
    · split <;> simp
    · simp
  · rw [processAnswer_parse_some q _ t tpq sc _ hparse,
        processAnswer_parse_some q _ t tpq sc _ hparse0]

/-- Witness for C10: on the fallback question (4 options), the input
`"3abc"` parses to 3, is not rejected, and behaves exactly like `"3"`. -/
theorem processAnswer_accepts_digit_prefix_witness :
    parseIntJS "3abc" = some 3 ∧
    processAnswer fallbackQ1 "3abc" 4 30 10 ≠ .invalid ∧
    processAnswer fallbackQ1 "3abc" 4 30 10 =
      processAnswer fallbackQ1 "3" 4 30 10 :=
  processAnswer_accepts_digit_prefix fallbackQ1 ['3'] ['a', 'b', 'c'] 4 30 10
    (by decide) (by decide) (by intro c hc; cases hc; decide)
    (by decide) (by decide)

/-! ## Unfolding equations for `nextQuestionStep` -/

/-- `nextQuestionStep` on a timeout: end-of-game check, then the timeout
handler's index increment. -/
theorem nextQuestionStep_timeout_eq (st : GameState) :
    nextQuestionStep st .timeout =
      (if st.gameActive = false ∨ st.questions.length ≤ st.currentQuestionIndex then
        Except.ok { st with gameActive := false }
      else
        Except.ok { st with currentQuestionIndex := st.currentQuestionIndex + 1 }) := by
  unfold nextQuestionStep
  split <;> rfl

/-- `nextQuestionStep` on one line of input: end-of-game check, then the
quit/skip/answer dispatch of lines 224-244. -/
theorem nextQuestionStep_input_eq (st : GameState) (s : String) (t : Nat) :
    nextQuestionStep st (.input s t) =
      (if st.gameActive = false ∨ st.questions.length ≤ st.currentQuestionIndex then
        Except.ok { st with gameActive := false }
      else if toLowerJS s = "quit" then
        Except.ok { st with gameActive := false }
      else if toLowerJS s = "skip" then
        Except.ok { st with currentQuestionIndex := st.currentQuestionIndex + 1 }
      else
        match st.questions[st.currentQuestionIndex]? with
        | none => Except.ok st
        | some q =>
          match processAnswer q s t st.timePerQuestion st.score with
          | .refError => Except.error ()
          | .correctBonus newScore =>
            Except.ok { st with score := newScore, currentQuestionIndex := st.currentQuestionIndex + 1, totalTime := st.totalTime + t }
          | _ =>
            Except.ok { st with currentQuestionIndex := st.currentQuestionIndex + 1, totalTime := st.totalTime + t }) := by
  unfold nextQuestionStep
  split <;> rfl

/-- `nextQuestionStep` on an input that is neither quit nor skip, in a
live session: the `processAnswer` dispatch of lines 237-244. -/
theorem nextQuestionStep_input_answer (st : GameState) (s : String) (t : Nat)
    (q : Question)
    (hg : ¬(st.gameActive = false ∨ st.questions.length ≤ st.currentQuestionIndex))
    (hnq : toLowerJS s ≠ "quit") (hns : toLowerJS s ≠ "skip")
    (hq : st.questions[st.currentQuestionIndex]? = some q) :
    nextQuestionStep st (.input s t) =
      (match processAnswer q s t st.timePerQuestion st.score with
       | .refError => Except.error ()
       | .correctBonus newScore =>
         Except.ok { st with score := newScore, currentQuestionIndex := st.currentQuestionIndex + 1, totalTime := st.totalTime + t }
       | _ =>
         Except.ok { st with currentQuestionIndex := st.currentQuestionIndex + 1, totalTime := st.totalTime + t }) := by
  rw [nextQuestionStep_input_eq, if_neg hg, if_neg hnq, if_neg hns, hq]

/-! ## Session start and replay (C5) -/

/-- **C5 (amended).** `startGame` resets `currentQuestionIndex`, `score`
and `totalTime` to 0, activates the session, and leaves the question list
alone; but `timePerQuestion` is *not* captured fresh: it is set to 0 when
the player answers `"no"` and otherwise keeps whatever value the previous
session left in it. -/
theorem startGame_resets (st : GameState) (ans : String) :
    (startGame st ans).currentQuestionIndex = 0 ∧
    (startGame st ans).score = 0 ∧
    (startGame st ans).totalTime = 0 ∧
    (startGame st ans).gameActive = true ∧
    (startGame st ans).questions = st.questions ∧
    (startGame st ans).timePerQuestion =
      (if toLowerJS ans = "no" then 0 else st.timePerQuestion) := by
  unfold startGame
  split <;> simp_all

/-- Counterexample to C5 as stated: play a session with the timer disabled
(`"no"`), quit it, play again answering `"yes"` to the timer prompt — the
new session starts with `timePerQuestion = 0`, the previous session's
value, while a brand-new state given the same `"yes"` answer starts with
30.  A field of the previous session's state is therefore reused. -/
theorem startGame_reuses_timePerQuestion :
    nextQuestionStep (startGame { initialGameState with questions := [fallbackQ1, fallbackQ2] } "no") (.input "quit" 1) =
      .ok { startGame { initialGameState with questions := [fallbackQ1, fallbackQ2] } "no" with gameActive := false } ∧
    (startGame { startGame { initialGameState with questions := [fallbackQ1, fallbackQ2] } "no" with gameActive := false } "yes").timePerQuestion = 0 ∧
    (startGame { initialGameState with questions := [fallbackQ1, fallbackQ2] } "yes").timePerQuestion = 30 :=
  ⟨rfl, rfl, rfl⟩

/-! ## Skip and timeout (C6) -/

/-- **C6 (amended).** Resolving a question by skip or by timeout leaves
`score` unchanged and advances `currentQuestionIndex` by exactly 1 — but
neither adds anything to `totalTime`: the skip branch returns before the
`totalTime += answerTime` line (lines 229-234 vs 241), and the timeout
handler (lines 200-208) only increments the index. -/
theorem skip_timeout_step (st : GameState) (t : Nat)
    (ha : st.gameActive = true)
    (hlt : st.currentQuestionIndex < st.questions.length)
    (_htimer : 0 < st.timePerQuestion) :
    nextQuestionStep st .timeout =
      .ok { st with currentQuestionIndex := st.currentQuestionIndex + 1 } ∧
    nextQuestionStep st (.input "skip" t) =
      .ok { st with currentQuestionIndex := st.currentQuestionIndex + 1 } := by
  have hg : ¬(st.gameActive = false ∨
      st.questions.length ≤ st.currentQuestionIndex) := by
    push_neg
    exact ⟨by simp [ha], by omega⟩
  constructor
  · rw [nextQuestionStep_timeout_eq, if_neg hg]
  · rw [nextQuestionStep_input_eq, if_neg hg,
        if_neg (by decide : ¬(toLowerJS "skip" = "quit")),
        if_pos (by decide : toLowerJS "skip" = "skip")]

/-- Witness for C6 (amended) on the demo session. -/
theorem skip_timeout_step_witness :
    nextQuestionStep demoState .timeout =
      .ok { demoState with currentQuestionIndex := 1 } ∧
    nextQuestionStep demoState (.input "skip" 7) =
      .ok { demoState with currentQuestionIndex := 1 } :=
  skip_timeout_step demoState 7 rfl (by decide) (by decide)

/-- Counterexample to C6 as stated: a skip after 5 elapsed seconds leaves
`totalTime = 0` (the claim predicts the actual elapsed 5), and a timeout
with a 30-second budget also leaves `totalTime = 0` (the claim predicts
the full budget 30). -/
theorem skip_timeout_record_no_time :
    nextQuestionStep demoState (.input "skip" 5) =
      .ok { demoState with currentQuestionIndex := 1 } ∧
    ({ demoState with currentQuestionIndex := 1 } : GameState).totalTime = 0 ∧
    nextQuestionStep demoState .timeout =
      .ok { demoState with currentQuestionIndex := 1 } ∧
    demoState.timePerQuestion = 30 ∧ (0 : Nat) ≠ 0 + 5 ∧ (0 : Nat) ≠ 0 + 30 :=
  ⟨rfl, rfl, rfl, rfl, by decide, by decide⟩

/-! ## Invalid input (C7) -/

/-- **C7.** An in-question input that is neither `"skip"` nor `"quit"` and
does not parse to an integer in `[1, len(options)]` is rejected by
`processAnswer` with the inline invalid-answer outcome, the score is
unchanged, the session stays active, and `currentQuestionIndex` still
advances by 1 (with the elapsed time still accumulated, line 241). -/
theorem invalid_input_step (st : GameState) (q : Question) (s : String)
    (t : Nat) (ha : st.gameActive = true)
    (hq : st.questions[st.currentQuestionIndex]? = some q)
    (hns : toLowerJS s ≠ "skip") (hnq : toLowerJS s ≠ "quit")
    (hbad : ∀ i : Int, parseIntJS s = some i →
      i < 1 ∨ (q.options.length : Int) < i) :
    processAnswer q s t st.timePerQuestion st.score = .invalid ∧
    nextQuestionStep st (.input s t) =
      .ok { st with currentQuestionIndex := st.currentQuestionIndex + 1, totalTime := st.totalTime + t } := by
  have hpa : processAnswer q s t st.timePerQuestion st.score = .invalid := by
    cases hp : parseIntJS s with
    | none => exact processAnswer_parse_none q s t _ _ hp
    | some i =>
      rw [processAnswer_parse_some q s t _ _ i hp]
      rw [if_pos (by rcases hbad i hp with h | h <;> omega)]
  have hlt : st.currentQuestionIndex < st.questions.length := by
    rcases List.getElem?_eq_some.mp hq with ⟨h', _⟩
    exact h'
  have hg : ¬(st.gameActive = false ∨
      st.questions.length ≤ st.currentQuestionIndex) := by
    push_neg
    exact ⟨by simp [ha], by omega⟩
  refine ⟨hpa, ?_⟩
  rw [nextQuestionStep_input_answer st s t q hg hnq hns hq, hpa]

/-- Witness for C7: in the demo session, the out-of-range input `"9"`
(4 options) is rejected but the index still advances. -/
theorem invalid_input_step_witness :
    processAnswer fallbackQ1 "9" 2 30 0 = .invalid ∧
    nextQuestionStep demoState (.input "9" 2) =
      .ok { demoState with currentQuestionIndex := 1, totalTime := 2 } :=
  invalid_input_step demoState fallbackQ1 "9" 2 rfl rfl (by decide) (by decide)
    (by intro i hi
        have h9 : parseIntJS "9" = some 9 := rfl
        rw [h9] at hi
        injection hi with h'
        subst h'
        right
        decide)

/-! ## Quit and the report slice (C8) -/

/-- The positional filter of lines 281-282 keeps exactly the first `k`
questions. -/
theorem filterIdxLt_eq_take (k j : Nat) (qs : List Question) :
    filterIdxLt k j qs = qs.take (k - j) := by
  induction qs generalizing j with
  | nil => simp [filterIdxLt]
  | cons q rest ih =>
    by_cases h : j < k
    · have hk : k - j = (k - (j + 1)) + 1 := by omega
      simp [filterIdxLt, h, ih (j + 1), hk]
    · have h2 : k - j = 0 := by omega
      have h3 : k - (j + 1) = 0 := by omega
      simp [filterIdxLt, h, ih (j + 1), h2, h3]

/-- **C8.** Entering `"quit"` at 0-based question `k` ends the session with
`currentQuestionIndex = k` unchanged, and the report's `questionsAnswered`
and category breakdown reflect exactly the first `k` questions. -/
theorem quit_step_report (st : GameState) (k t : Nat)
    (ha : st.gameActive = true) (hk : st.currentQuestionIndex = k)
    (hlt : k < st.questions.length) :
    nextQuestionStep st (.input "quit" t) = .ok { st with gameActive := false } ∧
    questionsAnswered { st with gameActive := false } = k ∧
    categoryStats { st with gameActive := false } =
      categoryStatsOf (st.questions.take k) := by
  have hg : ¬(st.gameActive = false ∨
      st.questions.length ≤ st.currentQuestionIndex) := by
    push_neg
    exact ⟨by simp [ha], by omega⟩
  refine ⟨?_, ?_, ?_⟩
  · rw [nextQuestionStep_input_eq, if_neg hg,
        if_pos (by decide : toLowerJS "quit" = "quit")]
  · simpa [questionsAnswered] using hk
  · unfold categoryStats questionsAnswered
    simp [filterIdxLt_eq_take, hk]

/-- Witness for C8: quitting the demo session at question 1 reports one
answered question and the `Math` category of the single reached question. -/
theorem quit_step_report_witness :
    nextQuestionStep { demoState with currentQuestionIndex := 1 } (.input "quit" 2) =
      .ok { demoState with currentQuestionIndex := 1, gameActive := false } ∧
    questionsAnswered { demoState with currentQuestionIndex := 1, gameActive := false } = 1 ∧
    categoryStats { demoState with currentQuestionIndex := 1, gameActive := false } =
      categoryStatsOf (({ demoState with currentQuestionIndex := 1 } : GameState).questions.take 1) :=
  quit_step_report { demoState with currentQuestionIndex := 1 } 1 2 rfl rfl
    (by decide)

/-! ## The timer-vs-input race (C3) -/

/-- A timer-enabled session on a single question, about to be resolved. -/
def c3Race0 : RaceState :=
  { gs := { demoState with questions := [fallbackQ1] }
    answered := false
    timerCleared := false
    inputDone := false
    crashed := false }

/-- **C3.** Claimed: at most one outcome per question is ever acted upon —
in particular user input arriving after the timeout has fired is ignored.
The code only guards one direction: repeated timeout fires are suppressed
by the `answered` flag, and a timeout after input is prevented by
`clearInterval`, but the input continuation never consults `answered`, so
a late `"skip"` typed after the timeout fired is processed in full.  On a
one-question session the index is incremented twice, ending at 2 on a
1-question list (which also breaks `currentIndex <= len(questions)`). -/
theorem race_late_input_double_advance :
    (runRace fallbackQ1 c3Race0 [.timeoutFire, .inputArrive "skip" 31]).gs.currentQuestionIndex = 2 ∧
    c3Race0.gs.questions.length = 1 ∧
    (runRace fallbackQ1 c3Race0 [.timeoutFire, .timeoutFire]).gs.currentQuestionIndex = 1 ∧
    (runRace fallbackQ1 c3Race0 [.inputArrive "skip" 3, .timeoutFire]).gs.currentQuestionIndex = 1 :=
  ⟨by decide, by decide, by decide, by decide⟩

/-! ## The session invariant (C4) -/

/-- **C4.** Claimed: `0 ≤ currentIndex ≤ len(questions)` holds in every
reachable session state after every transition.  Each transition taken
alone preserves the bound (the entry check of line 186 guards every
increment), but the program also admits the timeout-then-late-input
schedule: on a 1-question timer session, the timeout fires and increments
the index, and a wrong answer `"3"` typed at the still-open prompt is then
processed in full (lines 212-244 never consult the `answered` flag) and
increments it again — `currentQuestionIndex` reaches 2 on a 1-question
list, violating the claimed upper bound. -/
theorem race_breaks_index_invariant :
    (runRace fallbackQ1 c3Race0 [.timeoutFire, .inputArrive "3" 31]).gs.currentQuestionIndex = 2 ∧
    (runRace fallbackQ1 c3Race0 [.timeoutFire, .inputArrive "3" 31]).gs.questions.length = 1 ∧
    ¬((runRace fallbackQ1 c3Race0 [.timeoutFire, .inputArrive "3" 31]).gs.currentQuestionIndex ≤
        (runRace fallbackQ1 c3Race0 [.timeoutFire, .inputArrive "3" 31]).gs.questions.length) :=
  ⟨by decide, by decide, by decide⟩

/-! ## Report division guards (C9) -/

/-- **C9.** With no questions answered the average-time display is the
guarded literal 0, and the percentage `score / totalPossiblePoints * 100`
with `totalPossiblePoints = 0` still yields a defined grade: `0 / 0` is
`NaN`, every `>=` on `NaN` is false and the ladder falls through to `F`,
while `score > 0` gives `+Infinity` and grade `A+` — no division error in
either case. -/
theorem report_division_guards (totalTime score : Nat) :
    averageTimeDisplay totalTime 0 = .num 0 ∧
    calculateGrade score 0 = (if score = 0 then "F 😢" else "A+ 🏆") := by
  constructor
  · simp [averageTimeDisplay]
  · by_cases h : score = 0
    · subst h
      rfl
    · have hdiv : jsDivNat score 0 = .posInf := by simp [jsDivNat, h]
      simp [calculateGrade, hdiv, jsTimes100, jsGe, h]

end Trivia
